import Mathlib

/-!
Shallow embedding of the ngrams.dev client library (`src/lib.rs`) and proofs
about it.  Pure data and control flow are translated directly from the Rust
source; the HTTP transport (reqwest) and the JSON text parser (serde_json)
are external collaborators and are modelled at their boundary:

* an HTTP exchange is an `HttpEvent` describing what the transport delivered
  (connection failure, a 200 response with a body, a 400 response with a
  body, or some other status code);
* a raw response body (`RawText`) is either syntactically malformed JSON or
  a well-formed JSON value (`Json` AST); the serde-derived shape decoders of
  this crate are embedded as total functions `Json → Option _`;
* Rust `u8`/`u16`/`u32`/`u64` become `Nat` (range checks explicit where they
  matter), `f64` becomes `ℚ` (the comparisons the crate performs on floats:
  subtraction, absolute value, `<`, `=`);
* `String`/`&str`/`Cow<str>` all become `String` (borrowing is a lifetime
  discipline with no observable value-level content).
-/

namespace NgramsRs

/-- `Corpus` enum from lib.rs. -/
inductive Corpus
  | English
  | German
  | Russian
deriving DecidableEq

/-- `Corpus::label`. -/
def Corpus.label : Corpus → String
  | .English => "eng"
  | .German => "ger"
  | .Russian => "rus"

/-- `SearchOptions` struct: page size limit (u8), page-count budget (u32),
and the seven boolean query modifiers, in source order. -/
structure SearchOptions where
  max_page_size : Nat
  max_page_count : Nat
  case_sensitive : Bool
  collapse_result : Bool
  exclude_punctuation_marks : Bool
  exclude_sentence_boundary_tags : Bool
  dont_interpret_query_operators : Bool
  dont_tokenize_query_terms : Bool
  dont_unicode_normalize_query : Bool
deriving DecidableEq

/-- `SearchOptions::to_flags`: builds the flag string by appending a fixed
two-letter abbreviation for each active modifier, in source order. -/
def SearchOptions.to_flags (self : SearchOptions) : String :=
  let flags := ""
  let flags := if self.case_sensitive then flags ++ "cs" else flags
  let flags := if self.collapse_result then flags ++ "cr" else flags
  let flags := if self.exclude_punctuation_marks then flags ++ "ep" else flags
  let flags := if self.exclude_sentence_boundary_tags then flags ++ "es" else flags
  let flags := if self.dont_interpret_query_operators then flags ++ "ri" else flags
  let flags := if self.dont_tokenize_query_terms then flags ++ "rt" else flags
  let flags := if self.dont_unicode_normalize_query then flags ++ "rn" else flags
  flags

/-- `Default for SearchOptions`. -/
def SearchOptions.default : SearchOptions :=
  { max_page_size := 100
    max_page_count := 10
    case_sensitive := false
    collapse_result := false
    exclude_punctuation_marks := false
    exclude_sentence_boundary_tags := false
    dont_interpret_query_operators := false
    dont_tokenize_query_terms := false
    dont_unicode_normalize_query := false }

/-- `QueryTokenKind` enum (serde `SCREAMING_SNAKE_CASE`). -/
inductive QueryTokenKind
  | Term
  | Star
  | Starstar
  | StarAdj
  | StarAdp
  | StarAdv
  | StarConj
  | StarDet
  | StarNoun
  | StarNum
  | StarPron
  | StarPrt
  | StarVerb
  | SentenceStart
  | SentenceEnd
  | Slash
  | Prefix
  | TermGroup
deriving DecidableEq

/-- `NgramTokenKind` enum (serde `SCREAMING_SNAKE_CASE`). -/
inductive NgramTokenKind
  | Term
  | TaggedAsAdj
  | TaggedAsAdp
  | TaggedAsAdv
  | TaggedAsConj
  | TaggedAsDet
  | TaggedAsNoun
  | TaggedAsNum
  | TaggedAsPron
  | TaggedAsPrt
  | TaggedAsVerb
  | SentenceStart
  | SentenceEnd
deriving DecidableEq

/-- `QueryTokenView` (borrowed view; `Cow<str>` text becomes `String`). -/
structure QueryTokenView where
  kind : QueryTokenKind
  text : String
deriving DecidableEq

/-- `NgramTokenView` (borrowed view). `inserted`/`completed` default to
false when absent from the payload (`#[serde(default)]`). -/
structure NgramTokenView where
  kind : NgramTokenKind
  text : String
  inserted : Bool
  completed : Bool
deriving DecidableEq

/-- `NgramLiteView` (borrowed view; `id : &str` becomes `String`,
`rel_total_match_count : f64` becomes `ℚ`). -/
structure NgramLiteView where
  id : String
  abs_total_match_count : Nat
  rel_total_match_count : ℚ
  tokens : List NgramTokenView
  abstract : Bool
deriving DecidableEq

/-- `PageView`: the borrowed page handed to the caller per iteration step. -/
structure PageView where
  query_tokens : List QueryTokenView
  ngrams : List NgramLiteView
deriving DecidableEq

/-- `QueryToken` (owned record). -/
structure QueryToken where
  kind : QueryTokenKind
  text : String
deriving DecidableEq

/-- `NgramToken` (owned record). -/
structure NgramToken where
  kind : NgramTokenKind
  text : String
  inserted : Bool
  completed : Bool
deriving DecidableEq

/-- `NgramLite` (owned record). -/
structure NgramLite where
  id : String
  abs_total_match_count : Nat
  rel_total_match_count : ℚ
  tokens : List NgramToken
  abstract : Bool
deriving DecidableEq

/-- `Page` (owned counterpart of `PageView`). -/
structure Page where
  query_tokens : List QueryToken
  ngrams : List NgramLite
deriving DecidableEq

/-- `From<&QueryTokenView> for QueryToken` (`text.to_string()` deep copy). -/
def QueryToken.ofView (token : QueryTokenView) : QueryToken :=
  { kind := token.kind
    text := token.text }

/-- `From<&NgramTokenView> for NgramToken`. -/
def NgramToken.ofView (token : NgramTokenView) : NgramToken :=
  { kind := token.kind
    text := token.text
    inserted := token.inserted
    completed := token.completed }

/-- `From<&NgramLiteView> for NgramLite`. -/
def NgramLite.ofView (ngram : NgramLiteView) : NgramLite :=
  { id := ngram.id
    abs_total_match_count := ngram.abs_total_match_count
    rel_total_match_count := ngram.rel_total_match_count
    tokens := ngram.tokens.map NgramToken.ofView
    abstract := ngram.abstract }

/-- `From<&PageView> for Page` (also `PageView::to_page`). -/
def Page.ofView (page : PageView) : Page :=
  { query_tokens := page.query_tokens.map QueryToken.ofView
    ngrams := page.ngrams.map NgramLite.ofView }

/-- `NgramStat`: per-year statistics entry (year u16, counts u64/f64). -/
structure NgramStat where
  year : Nat
  abs_match_count : Nat
  rel_match_count : ℚ

/-- `f64::EPSILON` = 2⁻⁵² (exactly representable; used by
`PartialEq for NgramStat`). -/
def EPSILON : ℚ := 1 / 2 ^ 52

/-- `PartialEq for NgramStat`: year and absolute count compared exactly,
relative count within `f64::EPSILON` (strict `<`). -/
def NgramStat.eq (self other : NgramStat) : Bool :=
  self.year == other.year
    && self.abs_match_count == other.abs_match_count
    && decide (|self.rel_match_count - other.rel_match_count| < EPSILON)

/-- `ErrorCode` enum: subset of server error codes the crate models. -/
inductive ErrorCode
  | InvalidParameterLimit
  | InvalidQueryBadAlternation
  | InvalidQueryBadCompletion
  | InvalidQueryBadTermGroup
  | InvalidQueryNoTerm
  | InvalidQueryTooExpensive
  | InvalidQueryTooManyTokens
deriving DecidableEq

/-- `BadInputError`: domain-rejection payload (server error code plus the
optionally echoed query tokens). -/
structure BadInputError where
  code : ErrorCode
  query_tokens : Option (List QueryToken)
deriving DecidableEq

/-- `ErrorKind` enum.  Source doc comments: `Connection` = "HTTP connection
error"; `Exception` = "Unexpected HTTP status code or invalid JSON";
`BadInput` = "User query or other input was invalid". -/
inductive ErrorKind
  | Connection
  | Exception
  | BadInput
deriving DecidableEq

/-- The dynamic `source` payload boxed inside `Error` (`Box<dyn error::Error>`),
restricted to the error values this crate actually boxes. -/
inductive ErrorSource
  | reqwestError
  | serdeJsonError
  | badInput (e : BadInputError)
  | unexpectedStatusCode (code : Nat)
deriving DecidableEq

/-- `Error` struct: a kind plus an optional boxed source. -/
structure Error where
  kind : ErrorKind
  source : Option ErrorSource
deriving DecidableEq

/-- `Error::new`. -/
def Error.new (kind : ErrorKind) (source : Option ErrorSource) : Error :=
  { kind := kind, source := source }

/-- `Error::connection`: wraps a transport error with kind `Connection`. -/
def Error.connection (err : ErrorSource) : Error :=
  Error.new .Connection (some err)

/-- `Error::exception` as written in the source: it constructs the error
with `ErrorKind::Connection` (lib.rs line 458), not `ErrorKind::Exception`. -/
def Error.exception (err : ErrorSource) : Error :=
  Error.new .Connection (some err)

/-- `Error::bad_input`. -/
def Error.bad_input (err : BadInputError) : Error :=
  Error.new .BadInput (some (.badInput err))

/-- `Error::unexpected_status_code`. -/
def Error.unexpected_status_code (code : Nat) : Error :=
  Error.exception (.unexpectedStatusCode code)

/-! ## JSON value model

serde_json's parsed document: a JSON AST.  Numbers are modelled as `ℚ`
(covering the integer and float payloads the crate reads). -/

inductive Json
  | null
  | bool (b : Bool)
  | num (q : ℚ)
  | str (s : String)
  | arr (elems : List Json)
  | obj (fields : List (String × Json))

/-- Look up a field of a JSON object (first occurrence wins; unknown fields
are ignored, as serde does by default). -/
def Json.find (fields : List (String × Json)) (key : String) : Option Json :=
  match fields with
  | [] => none
  | (k, v) :: rest => if k = key then some v else Json.find rest key

def Json.asStr : Json → Option String
  | .str s => some s
  | _ => none

def Json.asBool : Json → Option Bool
  | .bool b => some b
  | _ => none

def Json.asArr : Json → Option (List Json)
  | .arr elems => some elems
  | _ => none

def Json.asObj : Json → Option (List (String × Json))
  | .obj fields => some fields
  | _ => none

/-- Deserialize a `u64`: a non-negative integral JSON number below 2⁶⁴. -/
def Json.asU64 : Json → Option Nat
  | .num q =>
      if q.den == 1 && decide (0 ≤ q.num) && decide (q.num < 2 ^ 64) then
        some q.num.toNat
      else none
  | _ => none

/-- Deserialize an `f64` (any JSON number in this model). -/
def Json.asF64 : Json → Option ℚ
  | .num q => some q
  | _ => none

/-- A serde(default) `bool` field: absent means false, present must be a
JSON boolean. -/
def Json.boolFieldOrDefault (fields : List (String × Json)) (key : String) :
    Option Bool :=
  match Json.find fields key with
  | none => some false
  | some j => j.asBool

/-- An `Option<T>` field: absent or JSON null means `none`, otherwise the
inner deserializer must succeed. -/
def Json.optField (fields : List (String × Json)) (key : String)
    (dec : Json → Option α) : Option (Option α) :=
  match Json.find fields key with
  | none => some none
  | some .null => some none
  | some j => (dec j).map some

/-- serde sequence deserialization: decode each element of a JSON array in
order, failing if any element fails. -/
def decodeList (dec : Json → Option α) : List Json → Option (List α)
  | [] => some []
  | x :: rest => do
    let y ← dec x
    let ys ← decodeList dec rest
    pure (y :: ys)

/-! ## Shape decoders and encoders (serde derives of lib.rs) -/

/-- Serialized name of each `QueryTokenKind` variant
(`rename_all = "SCREAMING_SNAKE_CASE"`). -/
def QueryTokenKind.serialName : QueryTokenKind → String
  | .Term => "TERM"
  | .Star => "STAR"
  | .Starstar => "STARSTAR"
  | .StarAdj => "STAR_ADJ"
  | .StarAdp => "STAR_ADP"
  | .StarAdv => "STAR_ADV"
  | .StarConj => "STAR_CONJ"
  | .StarDet => "STAR_DET"
  | .StarNoun => "STAR_NOUN"
  | .StarNum => "STAR_NUM"
  | .StarPron => "STAR_PRON"
  | .StarPrt => "STAR_PRT"
  | .StarVerb => "STAR_VERB"
  | .SentenceStart => "SENTENCE_START"
  | .SentenceEnd => "SENTENCE_END"
  | .Slash => "SLASH"
  | .Prefix => "PREFIX"
  | .TermGroup => "TERM_GROUP"

def QueryTokenKind.decode (j : Json) : Option QueryTokenKind := do
  let s ← j.asStr
  match s with
  | "TERM" => some .Term
  | "STAR" => some .Star
  | "STARSTAR" => some .Starstar
  | "STAR_ADJ" => some .StarAdj
  | "STAR_ADP" => some .StarAdp
  | "STAR_ADV" => some .StarAdv
  | "STAR_CONJ" => some .StarConj
  | "STAR_DET" => some .StarDet
  | "STAR_NOUN" => some .StarNoun
  | "STAR_NUM" => some .StarNum
  | "STAR_PRON" => some .StarPron
  | "STAR_PRT" => some .StarPrt
  | "STAR_VERB" => some .StarVerb
  | "SENTENCE_START" => some .SentenceStart
  | "SENTENCE_END" => some .SentenceEnd
  | "SLASH" => some .Slash
  | "PREFIX" => some .Prefix
  | "TERM_GROUP" => some .TermGroup
  | _ => none

def QueryTokenKind.encode (k : QueryTokenKind) : Json := .str k.serialName

/-- Serialized name of each `NgramTokenKind` variant. -/
def NgramTokenKind.serialName : NgramTokenKind → String
  | .Term => "TERM"
  | .TaggedAsAdj => "TAGGED_AS_ADJ"
  | .TaggedAsAdp => "TAGGED_AS_ADP"
  | .TaggedAsAdv => "TAGGED_AS_ADV"
  | .TaggedAsConj => "TAGGED_AS_CONJ"
  | .TaggedAsDet => "TAGGED_AS_DET"
  | .TaggedAsNoun => "TAGGED_AS_NOUN"
  | .TaggedAsNum => "TAGGED_AS_NUM"
  | .TaggedAsPron => "TAGGED_AS_PRON"
  | .TaggedAsPrt => "TAGGED_AS_PRT"
  | .TaggedAsVerb => "TAGGED_AS_VERB"
  | .SentenceStart => "SENTENCE_START"
  | .SentenceEnd => "SENTENCE_END"

def NgramTokenKind.decode (j : Json) : Option NgramTokenKind := do
  let s ← j.asStr
  match s with
  | "TERM" => some .Term
  | "TAGGED_AS_ADJ" => some .TaggedAsAdj
  | "TAGGED_AS_ADP" => some .TaggedAsAdp
  | "TAGGED_AS_ADV" => some .TaggedAsAdv
  | "TAGGED_AS_CONJ" => some .TaggedAsConj
  | "TAGGED_AS_DET" => some .TaggedAsDet
  | "TAGGED_AS_NOUN" => some .TaggedAsNoun
  | "TAGGED_AS_NUM" => some .TaggedAsNum
  | "TAGGED_AS_PRON" => some .TaggedAsPron
  | "TAGGED_AS_PRT" => some .TaggedAsPrt
  | "TAGGED_AS_VERB" => some .TaggedAsVerb
  | "SENTENCE_START" => some .SentenceStart
  | "SENTENCE_END" => some .SentenceEnd
  | _ => none

def NgramTokenKind.encode (k : NgramTokenKind) : Json := .str k.serialName

/-- `Deserialize for QueryTokenView` (plain field names, no rename). -/
def QueryTokenView.decode (j : Json) : Option QueryTokenView := do
  let fields ← j.asObj
  let kind ← Json.find fields "kind" >>= QueryTokenKind.decode
  let text ← Json.find fields "text" >>= Json.asStr
  pure { kind := kind, text := text }

/-- `Deserialize for NgramTokenView` (`inserted`/`completed` default false). -/
def NgramTokenView.decode (j : Json) : Option NgramTokenView := do
  let fields ← j.asObj
  let kind ← Json.find fields "kind" >>= NgramTokenKind.decode
  let text ← Json.find fields "text" >>= Json.asStr
  let inserted ← Json.boolFieldOrDefault fields "inserted"
  let completed ← Json.boolFieldOrDefault fields "completed"
  pure { kind := kind, text := text, inserted := inserted, completed := completed }

/-- `Deserialize for NgramLiteView` (`rename_all = "camelCase"`,
`abstract` defaults to false). -/
def NgramLiteView.decode (j : Json) : Option NgramLiteView := do
  let fields ← j.asObj
  let id ← Json.find fields "id" >>= Json.asStr
  let abs_total_match_count ← Json.find fields "absTotalMatchCount" >>= Json.asU64
  let rel_total_match_count ← Json.find fields "relTotalMatchCount" >>= Json.asF64
  let tokens ← Json.find fields "tokens" >>= Json.asArr >>=
    decodeList NgramTokenView.decode
  let abstract ← Json.boolFieldOrDefault fields "abstract"
  pure { id := id, abs_total_match_count := abs_total_match_count
         rel_total_match_count := rel_total_match_count
         tokens := tokens, abstract := abstract }

/-- `Deserialize for PageView` (`rename_all = "camelCase"`). -/
def PageView.decode (j : Json) : Option PageView := do
  let fields ← j.asObj
  let query_tokens ← Json.find fields "queryTokens" >>= Json.asArr >>=
    decodeList QueryTokenView.decode
  let ngrams ← Json.find fields "ngrams" >>= Json.asArr >>=
    decodeList NgramLiteView.decode
  pure { query_tokens := query_tokens, ngrams := ngrams }

/-- `Deserialize for QueryToken` (owned derive). -/
def QueryToken.decode (j : Json) : Option QueryToken := do
  let fields ← j.asObj
  let kind ← Json.find fields "kind" >>= QueryTokenKind.decode
  let text ← Json.find fields "text" >>= Json.asStr
  pure { kind := kind, text := text }

/-- `Deserialize for NgramToken` (owned derive). -/
def NgramToken.decode (j : Json) : Option NgramToken := do
  let fields ← j.asObj
  let kind ← Json.find fields "kind" >>= NgramTokenKind.decode
  let text ← Json.find fields "text" >>= Json.asStr
  let inserted ← Json.boolFieldOrDefault fields "inserted"
  let completed ← Json.boolFieldOrDefault fields "completed"
  pure { kind := kind, text := text, inserted := inserted, completed := completed }

/-- `Deserialize for NgramLite` (owned derive, `rename_all = "camelCase"`). -/
def NgramLite.decode (j : Json) : Option NgramLite := do
  let fields ← j.asObj
  let id ← Json.find fields "id" >>= Json.asStr
  let abs_total_match_count ← Json.find fields "absTotalMatchCount" >>= Json.asU64
  let rel_total_match_count ← Json.find fields "relTotalMatchCount" >>= Json.asF64
  let tokens ← Json.find fields "tokens" >>= Json.asArr >>=
    decodeList NgramToken.decode
  let abstract ← Json.boolFieldOrDefault fields "abstract"
  pure { id := id, abs_total_match_count := abs_total_match_count
         rel_total_match_count := rel_total_match_count
         tokens := tokens, abstract := abstract }

/-- `Deserialize for Page` (owned derive, `rename_all = "camelCase"`). -/
def Page.decode (j : Json) : Option Page := do
  let fields ← j.asObj
  let query_tokens ← Json.find fields "queryTokens" >>= Json.asArr >>=
    decodeList QueryToken.decode
  let ngrams ← Json.find fields "ngrams" >>= Json.asArr >>=
    decodeList NgramLite.decode
  pure { query_tokens := query_tokens, ngrams := ngrams }

/-- `Serialize for QueryTokenView`. -/
def QueryTokenView.encode (t : QueryTokenView) : Json :=
  .obj [("kind", t.kind.encode), ("text", .str t.text)]

/-- `Serialize for QueryToken`. -/
def QueryToken.encode (t : QueryToken) : Json :=
  .obj [("kind", t.kind.encode), ("text", .str t.text)]

/-- `Serialize for NgramTokenView`. -/
def NgramTokenView.encode (t : NgramTokenView) : Json :=
  .obj [("kind", t.kind.encode), ("text", .str t.text),
        ("inserted", .bool t.inserted), ("completed", .bool t.completed)]

/-- `Serialize for NgramToken`. -/
def NgramToken.encode (t : NgramToken) : Json :=
  .obj [("kind", t.kind.encode), ("text", .str t.text),
        ("inserted", .bool t.inserted), ("completed", .bool t.completed)]

/-- `Serialize for NgramLiteView`. -/
def NgramLiteView.encode (n : NgramLiteView) : Json :=
  .obj [("id", .str n.id),
        ("absTotalMatchCount", .num (n.abs_total_match_count : ℚ)),
        ("relTotalMatchCount", .num n.rel_total_match_count),
        ("tokens", .arr (n.tokens.map NgramTokenView.encode)),
        ("abstract", .bool n.abstract)]

/-- `Serialize for NgramLite`. -/
def NgramLite.encode (n : NgramLite) : Json :=
  .obj [("id", .str n.id),
        ("absTotalMatchCount", .num (n.abs_total_match_count : ℚ)),
        ("relTotalMatchCount", .num n.rel_total_match_count),
        ("tokens", .arr (n.tokens.map NgramToken.encode)),
        ("abstract", .bool n.abstract)]

/-- `Serialize for PageView`. -/
def PageView.encode (p : PageView) : Json :=
  .obj [("queryTokens", .arr (p.query_tokens.map QueryTokenView.encode)),
        ("ngrams", .arr (p.ngrams.map NgramLiteView.encode))]

/-- `Serialize for Page`. -/
def Page.encode (p : Page) : Json :=
  .obj [("queryTokens", .arr (p.query_tokens.map QueryToken.encode)),
        ("ngrams", .arr (p.ngrams.map NgramLite.encode))]

/-- `Deserialize for ErrorCode` (explicit serde renames). -/
def ErrorCode.decode (j : Json) : Option ErrorCode := do
  let s ← j.asStr
  match s with
  | "INVALID_PARAMETER.LIMIT" => some .InvalidParameterLimit
  | "INVALID_QUERY.BAD_ALTERNATION" => some .InvalidQueryBadAlternation
  | "INVALID_QUERY.BAD_COMPLETION" => some .InvalidQueryBadCompletion
  | "INVALID_QUERY.BAD_TERM_GROUP" => some .InvalidQueryBadTermGroup
  | "INVALID_QUERY.NO_TERM" => some .InvalidQueryNoTerm
  | "INVALID_QUERY.TOO_EXPENSIVE" => some .InvalidQueryTooExpensive
  | "INVALID_QUERY.TOO_MANY_TOKENS" => some .InvalidQueryTooManyTokens
  | _ => none

/-! ## Internal module (`mod internal` of lib.rs): wire-format result shapes -/

namespace internal

/-- `internal::SearchResult`: the successful-page wire shape
(`rename_all = "camelCase"`; `next_page_token` optional). -/
structure SearchResult where
  query_tokens : List QueryTokenView
  ngrams : List NgramLiteView
  next_page_token : Option String
deriving DecidableEq

/-- `internal::Error`: the `error` object of the domain-error wire shape. -/
structure Error where
  code : ErrorCode
  context : Option String
deriving DecidableEq

/-- `internal::ErrorResult`: the domain-error wire shape
(`rename_all = "camelCase"`; `query_tokens` optional). -/
structure ErrorResult where
  error : Error
  query_tokens : Option (List QueryToken)
deriving DecidableEq

/-- `Deserialize for internal::SearchResult`. -/
def SearchResult.decode (j : Json) : Option SearchResult := do
  let fields ← j.asObj
  let query_tokens ← Json.find fields "queryTokens" >>= Json.asArr >>=
    decodeList QueryTokenView.decode
  let ngrams ← Json.find fields "ngrams" >>= Json.asArr >>=
    decodeList NgramLiteView.decode
  let next_page_token ← Json.optField fields "nextPageToken" Json.asStr
  pure { query_tokens := query_tokens, ngrams := ngrams
         next_page_token := next_page_token }

/-- `Deserialize for internal::Error` (plain field names). -/
def Error.decode (j : Json) : Option Error := do
  let fields ← j.asObj
  let code ← Json.find fields "code" >>= ErrorCode.decode
  let context ← Json.optField fields "context" Json.asStr
  pure { code := code, context := context }

/-- `Deserialize for internal::ErrorResult`. -/
def ErrorResult.decode (j : Json) : Option ErrorResult := do
  let fields ← j.asObj
  let error ← Json.find fields "error" >>= Error.decode
  let query_tokens ← Json.optField fields "queryTokens"
    (fun j => j.asArr >>= decodeList QueryToken.decode)
  pure { error := error, query_tokens := query_tokens }

end internal

/-! ## Raw response bodies and the transport boundary -/

/-- A raw HTTP response body as a text buffer: either not syntactically
valid JSON at all, or valid JSON with the given parsed value.  The cursor
stores the raw body of the last 200 response in this form
(`Pages.payload`). -/
inductive RawText
  | malformed (text : String)
  | wellFormed (j : Json)

/-- `serde_json::from_str::<internal::SearchResult>` on a raw body:
fails on malformed JSON, otherwise runs the derived shape decoder. -/
def fromStrSearchResult : RawText → Option internal.SearchResult
  | .malformed _ => none
  | .wellFormed j => internal.SearchResult.decode j

/-- `Response::json::<internal::ErrorResult>` on a raw body. -/
def fromStrErrorResult : RawText → Option internal.ErrorResult
  | .malformed _ => none
  | .wellFormed j => internal.ErrorResult.decode j

/-- What one HTTP exchange delivered to `Pages::next`, at the reqwest
boundary:

* `connFailure` — `send()` returned `Err` (transport failure);
* `okResponse text` — status 200; `text` is the body, `none` when the
  body read (`res.text()`) itself failed;
* `badRequest body` — status 400; `body` is the body, `none` when the
  body read failed;
* `otherStatus code` — any other status code. -/
inductive HttpEvent
  | connFailure
  | okResponse (text : Option RawText)
  | badRequest (body : Option RawText)
  | otherStatus (code : Nat)

/-! ## Pagination cursor (`Pages`) -/

/-- `Pages` struct: the pagination cursor.  The `client` field (a cloneable
HTTP handle with no observable state) is omitted; `payload` starts as the
empty string, which is malformed JSON. -/
structure Pages where
  query : String
  corpus : Corpus
  options : SearchOptions
  payload : RawText
  next : Option String

/-- `Pages::new`. -/
def Pages.new (query : String) (corpus : Corpus) (options : SearchOptions) :
    Pages :=
  { query := query, corpus := corpus, options := options
    payload := .malformed "", next := none }

/-- The query-parameter list `Pages::next` builds before sending: `query`,
`limit`, then `flags` only if the flag string is non-empty, then `start`
only if a continuation token is stored. -/
def Pages.params (p : Pages) : List (String × String) :=
  let max_page_size := toString p.options.max_page_size
  let params := [("query", p.query), ("limit", max_page_size)]
  let flags := p.options.to_flags
  let params := if flags = "" then params else params ++ [("flags", flags)]
  match p.next with
  | some next => params ++ [("start", next)]
  | none => params

/-- `Pages::next`, as a pure step function.  The cursor consumes the
delivered `HttpEvent` and returns the updated cursor plus the call's
result (`none` = the terminal "no more pages" signal; when the budget is
zero the event is never examined — no request is issued). -/
def Pages.fetchNext (p : Pages) (ev : HttpEvent) :
    Pages × Option (Except Error PageView) :=
  if p.options.max_page_count = 0 then
    (p, none)
  else
    match ev with
    | .connFailure =>
        (p, some (.error (Error.connection .reqwestError)))
    | .okResponse none =>
        (p, some (.error (Error.exception .reqwestError)))
    | .okResponse (some text) =>
        -- self.payload = text  (NgramTokenView::text backing)
        let p := { p with payload := text }
        match fromStrSearchResult text with
        | some res =>
            match res.next_page_token with
            | some token =>
                let p := { p with
                  options := { p.options with
                    max_page_count := p.options.max_page_count - 1 }
                  next := some token }
                (p, some (.ok { query_tokens := res.query_tokens
                                ngrams := res.ngrams }))
            | none =>
                let p := { p with
                  options := { p.options with max_page_count := 0 }
                  next := none }
                (p, some (.ok { query_tokens := res.query_tokens
                                ngrams := res.ngrams }))
        | none => (p, some (.error (Error.exception .serdeJsonError)))
    | .badRequest none =>
        (p, some (.error (Error.exception .serdeJsonError)))
    | .badRequest (some body) =>
        match fromStrErrorResult body with
        | some res =>
            (p, some (.error (Error.bad_input
              { code := res.error.code, query_tokens := res.query_tokens })))
        | none => (p, some (.error (Error.exception .serdeJsonError)))
    | .otherStatus code =>
        (p, some (.error (Error.unexpected_status_code code)))

/-- Rust integer subtraction as checked subtraction: `none` models the
debug-mode underflow panic of `a - b` on `u32`. -/
def u32CheckedSub (a b : Nat) : Option Nat :=
  if b ≤ a then some (a - b) else none

/-- `Pages::next` with the budget decrement performed by checked (panicking)
subtraction: `none` models an arithmetic underflow panic. -/
def Pages.fetchNextChecked (p : Pages) (ev : HttpEvent) :
    Option (Pages × Option (Except Error PageView)) :=
  if p.options.max_page_count = 0 then
    some (p, none)
  else
    match ev with
    | .connFailure =>
        some (p, some (.error (Error.connection .reqwestError)))
    | .okResponse none =>
        some (p, some (.error (Error.exception .reqwestError)))
    | .okResponse (some text) =>
        let p := { p with payload := text }
        match fromStrSearchResult text with
        | some res =>
            match res.next_page_token with
            | some token => do
                let budget ← u32CheckedSub p.options.max_page_count 1
                let p := { p with
                  options := { p.options with max_page_count := budget }
                  next := some token }
                some (p, some (.ok { query_tokens := res.query_tokens
                                     ngrams := res.ngrams }))
            | none =>
                let p := { p with
                  options := { p.options with max_page_count := 0 }
                  next := none }
                some (p, some (.ok { query_tokens := res.query_tokens
                                     ngrams := res.ngrams }))
        | none => some (p, some (.error (Error.exception .serdeJsonError)))
    | .badRequest none =>
        some (p, some (.error (Error.exception .serdeJsonError)))
    | .badRequest (some body) =>
        match fromStrErrorResult body with
        | some res =>
            some (p, some (.error (Error.bad_input
              { code := res.error.code, query_tokens := res.query_tokens })))
        | none => some (p, some (.error (Error.exception .serdeJsonError)))
    | .otherStatus code =>
        some (p, some (.error (Error.unexpected_status_code code)))

/-- Drive the cursor through a list of HTTP events, collecting each call's
result. -/
def Pages.run (p : Pages) (evs : List HttpEvent) :
    Pages × List (Option (Except Error PageView)) :=
  match evs with
  | [] => (p, [])
  | ev :: rest =>
      let step := p.fetchNext ev
      let tail := step.1.run rest
      (tail.1, step.2 :: tail.2)

/-- Number of successful pages in a list of call results. -/
def countOkPages (rs : List (Option (Except Error PageView))) : Nat :=
  rs.countP fun r =>
    match r with
    | some (.ok _) => true
    | _ => false

/-! ## total_counts deserialization -/

def TOTAL_COUNTS_BY_YEAR_LEN : Nat := 550

/-- serde deserialization error, restricted to what
`Deserialize for TotalCountsByYear` produces: `invalid_length(got, expected)`. -/
inductive DeError
  | invalidLength (got : Nat) (expected : String)
deriving DecidableEq

/-- `Deserialize for TotalCountsByYear`: after serde has produced the
`Vec<u64>`, reject any length other than `TOTAL_COUNTS_BY_YEAR_LEN` with
`invalid_length`; otherwise copy the values into the fixed-size array
(content preserved in order). -/
def TotalCountsByYear.deserialize (deserialized : List Nat) :
    Except DeError (List Nat) :=
  if deserialized.length ≠ TOTAL_COUNTS_BY_YEAR_LEN then
    .error (.invalidLength deserialized.length
      (toString TOTAL_COUNTS_BY_YEAR_LEN))
  else
    .ok deserialized

/-! ## Spec-side reformulation of the flag encoder (for the refinement
theorem about `to_flags`) -/

/-- The spec's description of the flag encoding: the seven modifiers paired
with their fixed two-letter abbreviations, in the declared order. -/
def flagAbbrevs (o : SearchOptions) : List (Bool × String) :=
  [(o.case_sensitive, "cs"), (o.collapse_result, "cr"),
   (o.exclude_punctuation_marks, "ep"),
   (o.exclude_sentence_boundary_tags, "es"),
   (o.dont_interpret_query_operators, "ri"),
   (o.dont_tokenize_query_terms, "rt"),
   (o.dont_unicode_normalize_query, "rn")]

/-! ## Concrete test vectors (used by witnesses and counterexamples) -/

/-- Default options with a chosen page-count budget. -/
def sampleOptions (budget : Nat) : SearchOptions :=
  { SearchOptions.default with max_page_count := budget }

/-- A freshly created cursor with the chosen budget. -/
def samplePages (budget : Nat) : Pages :=
  Pages.new "hello * *" .English (sampleOptions budget)

/-- A successful search-result body carrying a continuation token. -/
def jPageTok : Json :=
  .obj [("queryTokens",
          .arr [.obj [("kind", .str "TERM"), ("text", .str "hello")]]),
        ("ngrams",
          .arr [.obj [("id", .str "abc"),
                      ("absTotalMatchCount", .num 5),
                      ("relTotalMatchCount", .num (1 / 2)),
                      ("tokens",
                        .arr [.obj [("kind", .str "TERM"),
                                    ("text", .str "hello")]])]]),
        ("nextPageToken", .str "tok1")]

/-- A successful search-result body with no continuation token. -/
def jPageNoTok : Json :=
  .obj [("queryTokens", .arr []), ("ngrams", .arr [])]

/-- A domain-error body (HTTP 400 shape). -/
def jBadReq : Json :=
  .obj [("error", .obj [("code", .str "INVALID_QUERY.NO_TERM")])]

def rawJunk : RawText := .malformed "junk"
def rawPageTok : RawText := .wellFormed jPageTok
def rawPageNoTok : RawText := .wellFormed jPageNoTok
def rawBadReq : RawText := .wellFormed jBadReq

/-- The decoded form of `jPageTok` as a wire search result. -/
def sampleSearchResultTok : internal.SearchResult :=
  { query_tokens := [{ kind := .Term, text := "hello" }]
    ngrams := [{ id := "abc", abs_total_match_count := 5
                 rel_total_match_count := 1 / 2
                 tokens := [{ kind := .Term, text := "hello"
                              inserted := false, completed := false }]
                 abstract := false }]
    next_page_token := some "tok1" }

/-- The decoded form of `jPageTok` as a borrowed page view. -/
def samplePageView : PageView :=
  { query_tokens := [{ kind := .Term, text := "hello" }]
    ngrams := [{ id := "abc", abs_total_match_count := 5
                 rel_total_match_count := 1 / 2
                 tokens := [{ kind := .Term, text := "hello"
                              inserted := false, completed := false }]
                 abstract := false }] }

/-- Two owned n-gram records identical except for relative total match
counts that differ by 2⁻⁵³ (strictly less than `f64::EPSILON`). -/
def nLiteA : NgramLite :=
  { id := "x", abs_total_match_count := 1, rel_total_match_count := 0
    tokens := [], abstract := false }

def nLiteB : NgramLite :=
  { nLiteA with rel_total_match_count := 1 / 2 ^ 53 }

/-! # Theorems -/

/-- Helper: one cursor step never increases the page-count budget. -/
theorem fetchNext_budget_le (p : Pages) (ev : HttpEvent) :
    (p.fetchNext ev).1.options.max_page_count ≤ p.options.max_page_count := by
  unfold Pages.fetchNext
  by_cases h : p.options.max_page_count = 0
  · simp [h]
  · simp only [h, if_false]
    cases ev with
    | connFailure => simp
    | okResponse text =>
        cases text with
        | none => simp
        | some t =>
            cases hres : fromStrSearchResult t with
            | none => simp [hres]
            | some res =>
                cases htok : res.next_page_token with
                | none => simp [hres, htok]
                | some tok => simp [hres, htok]
    | badRequest body =>
        cases body with
        | none => simp
        | some b => cases hres : fromStrErrorResult b <;> simp [hres]
    | otherStatus code => simp

/-- Helper: a successful page is only produced with a nonzero budget, and
it strictly consumes budget (the new budget is at most the old minus one). -/
theorem fetchNext_ok_budget (p : Pages) (ev : HttpEvent) (pv : PageView)
    (h : (p.fetchNext ev).2 = some (.ok pv)) :
    p.options.max_page_count ≠ 0 ∧
      (p.fetchNext ev).1.options.max_page_count ≤
        p.options.max_page_count - 1 := by
  unfold Pages.fetchNext at h ⊢
  by_cases hb : p.options.max_page_count = 0
  · simp [hb] at h
  · refine ⟨hb, ?_⟩
    simp only [hb, if_false] at h ⊢
    cases ev with
    | connFailure => simp at h
    | okResponse text =>
        cases text with
        | none => simp at h
        | some t =>
            cases hres : fromStrSearchResult t with
            | none => simp [hres] at h
            | some res =>
                cases htok : res.next_page_token with
                | none => simp [hres, htok]
                | some tok => simp [hres, htok]
    | badRequest body =>
        cases body with
        | none => simp at h
        | some b => cases hres : fromStrErrorResult b <;> simp [hres] at h
    | otherStatus code => simp at h

/-- Helper: across any event sequence, the number of successful pages is
bounded by the starting budget. -/
theorem run_countOk_le (evs : List HttpEvent) (p : Pages) :
    countOkPages (p.run evs).2 ≤ p.options.max_page_count := by
  induction evs generalizing p with
  | nil => simp [Pages.run, countOkPages]
  | cons ev rest ih =>
      show countOkPages (p.run (ev :: rest)).2 ≤ _
      unfold Pages.run
      simp only [countOkPages, List.countP_cons]
      cases hr : (p.fetchNext ev).2 with
      | none =>
          have := ih (p.fetchNext ev).1
          have hle := fetchNext_budget_le p ev
          simp only [countOkPages] at this
          simp [hr]
          omega
      | some r =>
          cases r with
          | error e =>
              have := ih (p.fetchNext ev).1
              have hle := fetchNext_budget_le p ev
              simp only [countOkPages] at this
              simp [hr]
              omega
          | ok pv =>
              have := ih (p.fetchNext ev).1
              have hok := fetchNext_ok_budget p ev pv hr
              simp only [countOkPages] at this
              simp [hr]
              omega

/-- C4: with a zero page-count budget, `Pages::next` returns the terminal
"no more pages" signal, leaves the cursor unchanged, and never examines the
HTTP exchange (no request is issued), so repeated calls keep returning the
same terminal signal; and across any sequence of calls a cursor yields at
most as many successful pages as its starting budget (so budget B>0 yields
at most B pages and budget 0 yields none). -/
theorem budget_zero_terminal_and_at_most_budget_pages
    (p : Pages) (ev ev' : HttpEvent) (evs : List HttpEvent) :
    (p.options.max_page_count = 0 →
      p.fetchNext ev = (p, none) ∧ p.fetchNext ev = p.fetchNext ev') ∧
    countOkPages (p.run evs).2 ≤ p.options.max_page_count := by
  constructor
  · intro h
    constructor <;> simp [Pages.fetchNext, h]
  · exact run_countOk_le evs p

/-- C4 witness: a cursor created with budget 0 returns the terminal signal
for an arbitrary delivered event, independently of the event, and a run
yields zero successful pages. -/
theorem budget_zero_terminal_witness :
    ((samplePages 0).fetchNext .connFailure = (samplePages 0, none) ∧
      (samplePages 0).fetchNext .connFailure =
        (samplePages 0).fetchNext (.okResponse (some rawPageTok))) ∧
    countOkPages ((samplePages 0).run [.okResponse (some rawPageTok)]).2 ≤
      (samplePages 0).options.max_page_count := by
  have h := budget_zero_terminal_and_at_most_budget_pages
    (samplePages 0) .connFailure (.okResponse (some rawPageTok))
    [.okResponse (some rawPageTok)]
  exact ⟨h.1 rfl, h.2⟩

/-- C10: the `u32` budget decrement in `Pages::next` never underflows —
the checked-subtraction version of the step never panics and agrees with
the total model — and the budget is non-increasing across every call. -/
theorem budget_decrement_never_underflows (p : Pages) (ev : HttpEvent) :
    p.fetchNextChecked ev = some (p.fetchNext ev) ∧
    (p.fetchNext ev).1.options.max_page_count ≤
      p.options.max_page_count := by
  refine ⟨?_, fetchNext_budget_le p ev⟩
  unfold Pages.fetchNextChecked Pages.fetchNext
  by_cases h : p.options.max_page_count = 0
  · simp [h]
  · simp only [h, if_false]
    cases ev with
    | connFailure => rfl
    | okResponse text =>
        cases text with
        | none => rfl
        | some t =>
            cases hres : fromStrSearchResult t with
            | none => simp [hres]
            | some res =>
                cases htok : res.next_page_token with
                | none => simp [hres, htok]
                | some tok =>
                    have h1 : u32CheckedSub p.options.max_page_count 1 =
                        some (p.options.max_page_count - 1) := by
                      unfold u32CheckedSub
                      have : 1 ≤ p.options.max_page_count := by omega
                      simp [this]
                    simp [hres, htok, h1]
    | badRequest body =>
        cases body with
        | none => rfl
        | some b => cases hres : fromStrErrorResult b <;> simp [hres]
    | otherStatus code => rfl

/-- C3: when `Pages::next` successfully parses a page (nonzero budget, 200
response whose body parses as a search result), the page is returned, the
stored continuation token becomes exactly the token the page reported (so
it is `Some` iff the page reported one); with a token present the budget
decrements by exactly one, and with it absent the budget becomes zero. -/
theorem parsed_page_token_and_budget_update (p : Pages) (text : RawText)
    (res : internal.SearchResult)
    (hb : p.options.max_page_count ≠ 0)
    (hres : fromStrSearchResult text = some res) :
    (p.fetchNext (.okResponse (some text))).2 =
      some (.ok { query_tokens := res.query_tokens, ngrams := res.ngrams }) ∧
    (p.fetchNext (.okResponse (some text))).1.next = res.next_page_token ∧
    (∀ tok, res.next_page_token = some tok →
      (p.fetchNext (.okResponse (some text))).1.options.max_page_count =
        p.options.max_page_count - 1) ∧
    (res.next_page_token = none →
      (p.fetchNext (.okResponse (some text))).1.options.max_page_count = 0) := by
  unfold Pages.fetchNext
  simp only [hb, if_false]
  cases htok : res.next_page_token with
  | none => simp [hres, htok]
  | some tok => simp [hres, htok]

/-- C3 witness: instantiated with a budget-3 cursor and concrete bodies
with and without a continuation token. -/
theorem parsed_page_token_and_budget_update_witness :
    ((samplePages 3).fetchNext (.okResponse (some rawPageTok))).1.next =
        some "tok1" ∧
    ((samplePages 3).fetchNext
        (.okResponse (some rawPageTok))).1.options.max_page_count = 2 ∧
    ((samplePages 3).fetchNext (.okResponse (some rawPageNoTok))).1.next =
        none ∧
    ((samplePages 3).fetchNext
        (.okResponse (some rawPageNoTok))).1.options.max_page_count = 0 := by
  have h1 := parsed_page_token_and_budget_update (samplePages 3) rawPageTok
    sampleSearchResultTok (by decide) (by rfl)
  have h2 := parsed_page_token_and_budget_update (samplePages 3) rawPageNoTok
    { query_tokens := [], ngrams := [], next_page_token := none }
    (by decide) (by rfl)
  refine ⟨?_, ?_, ?_, ?_⟩
  · exact h1.2.1
  · exact h1.2.2.1 "tok1" rfl
  · exact h2.2.1
  · exact h2.2.2.2 rfl

/-- C1 counterexample: the claim says a domain rejection forces the budget
to zero and makes every later call terminal; on a budget-5 cursor a 400
response with a well-formed domain-error body leaves the budget at 5, and
the very next call still examines a new HTTP exchange (returns a non-
terminal result). -/
theorem domain_rejection_leaves_budget_cex :
    ((samplePages 5).fetchNext
        (.badRequest (some rawBadReq))).1.options.max_page_count = 5 ∧
    (5 : Nat) ≠ 0 ∧
    (((samplePages 5).fetchNext
        (.badRequest (some rawBadReq))).1.fetchNext
          .connFailure).2.isSome = true := by
  exact ⟨by rfl, by decide, by rfl⟩

/-- C1 (amended): on an HTTP 400 response whose body parses as the
domain-error shape, `Pages::next` returns a Domain rejection (`BadInput`)
error carrying the server's error code and any echoed query tokens, and
leaves the whole cursor — budget included — unchanged, so a subsequent call
with nonzero budget issues a further request. -/
theorem domain_rejection_error_payload_state (p : Pages) (body : RawText)
    (res : internal.ErrorResult)
    (hb : p.options.max_page_count ≠ 0)
    (hres : fromStrErrorResult body = some res) :
    p.fetchNext (.badRequest (some body)) =
      (p, some (.error (Error.bad_input
        { code := res.error.code, query_tokens := res.query_tokens }))) := by
  unfold Pages.fetchNext
  simp [hb, hres]

/-- C1 witness: a budget-5 cursor receiving the concrete domain-error body
returns `BadInput` with code `INVALID_QUERY.NO_TERM` and no echoed tokens,
with the cursor unchanged. -/
theorem domain_rejection_error_payload_state_witness :
    (samplePages 5).fetchNext (.badRequest (some rawBadReq)) =
      (samplePages 5, some (.error (Error.bad_input
        { code := .InvalidQueryNoTerm, query_tokens := none }))) := by
  have h := domain_rejection_error_payload_state (samplePages 5) rawBadReq
    { error := { code := .InvalidQueryNoTerm, context := none }
      query_tokens := none }
    (by decide) (by rfl)
  exact h

/-- C5 counterexample: the claim says a Parse error leaves the stored
raw-body buffer unchanged; on a budget-3 cursor (buffer = empty string) a
200 response with the unparseable body "junk" produces the parse-failure
error yet replaces the buffer with "junk". -/
theorem parse_error_replaces_buffer_cex :
    ((samplePages 3).fetchNext (.okResponse (some rawJunk))).2 =
      some (.error (Error.exception .serdeJsonError)) ∧
    (samplePages 3).payload = RawText.malformed "" ∧
    ((samplePages 3).fetchNext (.okResponse (some rawJunk))).1.payload =
      RawText.malformed "junk" ∧
    RawText.malformed "junk" ≠ RawText.malformed "" := by
  refine ⟨by rfl, by rfl, by rfl, ?_⟩
  intro h
  injection h with h'
  exact absurd h' (by decide)

/-- C5 (amended): a Connection error (transport failure at send) leaves the
entire cursor state unchanged, as does a failed 200-body read and a parse
failure of a 400 body; a parse failure of a successfully read 200 body
leaves budget and continuation token unchanged but replaces the stored
raw-body buffer with the new body. -/
theorem connection_parse_error_frame (p : Pages)
    (hb : p.options.max_page_count ≠ 0) :
    p.fetchNext .connFailure =
      (p, some (.error (Error.connection .reqwestError))) ∧
    p.fetchNext (.okResponse none) =
      (p, some (.error (Error.exception .reqwestError))) ∧
    (∀ text, fromStrSearchResult text = none →
      p.fetchNext (.okResponse (some text)) =
        ({ p with payload := text },
          some (.error (Error.exception .serdeJsonError)))) ∧
    (∀ body, fromStrErrorResult body = none →
      p.fetchNext (.badRequest (some body)) =
        (p, some (.error (Error.exception .serdeJsonError)))) := by
  refine ⟨?_, ?_, ?_, ?_⟩
  · unfold Pages.fetchNext
    simp [hb]
  · unfold Pages.fetchNext
    simp [hb]
  · intro text htext
    unfold Pages.fetchNext
    simp [hb, htext]
  · intro body hbody
    unfold Pages.fetchNext
    simp [hb, hbody]

/-- C5 witness: instantiated on a budget-3 cursor with the malformed body
"junk". -/
theorem connection_parse_error_frame_witness :
    (samplePages 3).fetchNext .connFailure =
      (samplePages 3, some (.error (Error.connection .reqwestError))) ∧
    (samplePages 3).fetchNext (.okResponse (some rawJunk)) =
      ({ samplePages 3 with payload := rawJunk },
        some (.error (Error.exception .serdeJsonError))) := by
  have h := connection_parse_error_frame (samplePages 3) (by decide)
  exact ⟨h.1, h.2.2.1 rawJunk rfl⟩

/-- C2 (on the failing input): a parse failure of a 200 body is reported
with `ErrorKind::Connection` — `Error::exception` constructs its value with
`ErrorKind::Connection` — so parse failures and unexpected status codes are
not distinct from the Connection kind, and `ErrorKind::Exception` is never
produced. -/
theorem parse_error_kind_is_connection (p : Pages) (text : RawText)
    (hb : p.options.max_page_count ≠ 0)
    (hparse : fromStrSearchResult text = none) :
    (p.fetchNext (.okResponse (some text))).2 =
      some (.error { kind := .Connection, source := some .serdeJsonError }) ∧
    (∀ src, (Error.exception src).kind = .Connection) ∧
    (∀ code, (Error.unexpected_status_code code).kind = .Connection) ∧
    (∀ src, (Error.connection src).kind = .Connection) := by
  refine ⟨?_, fun _ => rfl, fun _ => rfl, fun _ => rfl⟩
  unfold Pages.fetchNext
  simp [hb, hparse, Error.exception, Error.new]

/-- C2 witness: a budget-1 cursor receiving a 200 response with body "junk"
yields an error of kind `Connection`. -/
theorem parse_error_kind_is_connection_witness :
    ((samplePages 1).fetchNext (.okResponse (some rawJunk))).2 =
      some (.error { kind := .Connection, source := some .serdeJsonError }) ∧
    (Error.unexpected_status_code 418).kind = .Connection := by
  have h := parse_error_kind_is_connection (samplePages 1) rawJunk
    (by decide) rfl
  exact ⟨h.1, h.2.2.1 418⟩

/-- C7: the flag encoder is a pure function of the seven boolean modifiers:
it equals the concatenation of the fixed two-letter abbreviations of the
active modifiers in the declared order (cs, cr, ep, es, ri, rt, rn);
an all-false input yields the empty string; and the request parameter list
contains a "flags" entry iff the flag string is non-empty (an empty flag
string is omitted entirely). -/
theorem flag_encoder_pure_ordered_omitted (o : SearchOptions) (p : Pages) :
    o.to_flags =
      String.join (((flagAbbrevs o).filter (fun x => x.1)).map
        (fun x => x.2)) ∧
    SearchOptions.to_flags
      { o with case_sensitive := false, collapse_result := false,
               exclude_punctuation_marks := false,
               exclude_sentence_boundary_tags := false,
               dont_interpret_query_operators := false,
               dont_tokenize_query_terms := false,
               dont_unicode_normalize_query := false } = "" ∧
    ((∃ v, ("flags", v) ∈ p.params) ↔ p.options.to_flags ≠ "") := by
  refine ⟨?_, rfl, ?_⟩
  · obtain ⟨mps, mpc, b1, b2, b3, b4, b5, b6, b7⟩ := o
    cases b1 <;> cases b2 <;> cases b3 <;> cases b4 <;>
      cases b5 <;> cases b6 <;> cases b7 <;> rfl
  · unfold Pages.params
    by_cases hf : p.options.to_flags = ""
    · cases p.next with
      | none => simp [hf]
      | some nxt => simp [hf]
    · cases p.next with
      | none =>
          simp [hf]
      | some nxt =>
          simp [hf]

/-- C8: `Deserialize for TotalCountsByYear` succeeds iff the per-year array
has length exactly 550; on success all values are preserved in order, and
any other length is rejected with the `invalid_length` error naming the
offending and expected lengths. -/
theorem total_counts_length_checked (xs : List Nat) :
    ((∃ v, TotalCountsByYear.deserialize xs = .ok v) ↔ xs.length = 550) ∧
    (∀ v, TotalCountsByYear.deserialize xs = .ok v → v = xs) ∧
    (xs.length ≠ 550 →
      TotalCountsByYear.deserialize xs =
        .error (.invalidLength xs.length "550")) := by
  unfold TotalCountsByYear.deserialize TOTAL_COUNTS_BY_YEAR_LEN
  by_cases h : xs.length = 550
  · simp [h]
  · simp only [h, ne_eq, not_false_iff, if_true, not_true_eq_false,
      if_false]
    refine ⟨?_, ?_, ?_⟩
    · simp [h]
    · intro v hv
      simp at hv
    · intro _
      rfl

/-- C8 witness: a 550-element array deserializes to itself; a 2-element
array is rejected with the length-mismatch error. -/
theorem total_counts_length_checked_witness :
    (∃ v, TotalCountsByYear.deserialize (List.replicate 550 0) = .ok v) ∧
    TotalCountsByYear.deserialize [1, 2] =
      .error (.invalidLength 2 "550") := by
  refine ⟨?_, ?_⟩
  · exact (total_counts_length_checked (List.replicate 550 0)).1.mpr
      (by rw [List.length_replicate])
  · exact (total_counts_length_checked [1, 2]).2.2 (by decide)

/-- C9 counterexample: the claim says relative total match counts are
compared with an epsilon tolerance; two owned n-gram records whose relative
counts differ by 2⁻⁵³ (strictly within `f64::EPSILON`) are nevertheless
unequal under the derived (exact) equality of `NgramLite`. -/
theorem ngram_lite_exact_equality_cex :
    nLiteA ≠ nLiteB ∧
    |nLiteA.rel_total_match_count - nLiteB.rel_total_match_count| <
      EPSILON := by
  constructor
  · simp only [nLiteA, nLiteB, ne_eq, NgramLite.mk.injEq]
    norm_num
  · simp only [nLiteA, nLiteB, EPSILON]
    rw [show (0 : ℚ) - 1 / 2 ^ 53 = -(1 / 2 ^ 53) by ring, abs_neg,
      abs_of_nonneg (by positivity)]
    norm_num

/-- C9 (amended): equality on the domain-rejection value is componentwise
on the error code and the optional rejected-token sequence; per-year stat
equality (`NgramStat`) uses a strict `f64::EPSILON` tolerance on the
relative match count; but the relative total match count of an n-gram
record (`NgramLite`) is compared exactly, with no epsilon tolerance. -/
theorem equality_semantics (s t : NgramStat) (m n : NgramLite) :
    (∀ (a c : ErrorCode) (b d : Option (List QueryToken)),
      BadInputError.mk a b = BadInputError.mk c d ↔ a = c ∧ b = d) ∧
    (NgramStat.eq s t = true ↔
      (s.year = t.year ∧ s.abs_match_count = t.abs_match_count ∧
        |s.rel_match_count - t.rel_match_count| < EPSILON)) ∧
    (m = n ↔
      (m.id = n.id ∧ m.abs_total_match_count = n.abs_total_match_count ∧
        m.rel_total_match_count = n.rel_total_match_count ∧
        m.tokens = n.tokens ∧ m.abstract = n.abstract)) := by
  refine ⟨?_, ?_, ?_⟩
  · intro a c b d
    simp [BadInputError.mk.injEq]
  · simp [NgramStat.eq, Bool.and_eq_true, beq_iff_eq, decide_eq_true_eq,
      and_assoc]
  · cases m
    cases n
    simp [NgramLite.mk.injEq]

/-- Helper: decoding into the owned `QueryToken` agrees with decoding into
the borrowed view and converting. -/
theorem queryToken_decode_map (j : Json) :
    QueryToken.decode j = (QueryTokenView.decode j).map QueryToken.ofView := by
  unfold QueryToken.decode QueryTokenView.decode
  cases j with
  | obj fields =>
      cases h1 : (Json.find fields "kind").bind QueryTokenKind.decode with
      | none => simp [Json.asObj, h1]
      | some kind =>
          cases h2 : (Json.find fields "text").bind Json.asStr with
          | none => simp [Json.asObj, h1, h2]
          | some text => simp [Json.asObj, h1, h2, QueryToken.ofView]
  | null => rfl
  | bool b => rfl
  | num q => rfl
  | str s => rfl
  | arr elems => rfl

/-- Helper: same for `NgramToken`. -/
theorem ngramToken_decode_map (j : Json) :
    NgramToken.decode j = (NgramTokenView.decode j).map NgramToken.ofView := by
  unfold NgramToken.decode NgramTokenView.decode
  cases j with
  | obj fields =>
      cases h1 : (Json.find fields "kind").bind NgramTokenKind.decode with
      | none => simp [Json.asObj, h1]
      | some kind =>
          cases h2 : (Json.find fields "text").bind Json.asStr with
          | none => simp [Json.asObj, h1, h2]
          | some text =>
              cases h3 : Json.boolFieldOrDefault fields "inserted" with
              | none => simp [Json.asObj, h1, h2, h3]
              | some ins =>
                  cases h4 : Json.boolFieldOrDefault fields "completed" with
                  | none => simp [Json.asObj, h1, h2, h3, h4]
                  | some comp =>
                      simp [Json.asObj, h1, h2, h3, h4, NgramToken.ofView]
  | null => rfl
  | bool b => rfl
  | num q => rfl
  | str s => rfl
  | arr elems => rfl

/-- Helper: elementwise decode agreement lifts through sequence decoding
for n-gram tokens. -/
theorem ngramToken_decodeList_map (xs : List Json) :
    decodeList NgramToken.decode xs =
      (decodeList NgramTokenView.decode xs).map
        (List.map NgramToken.ofView) := by
  induction xs with
  | nil => rfl
  | cons x rest ih =>
      unfold decodeList
      rw [ngramToken_decode_map x, ih]
      cases hv : NgramTokenView.decode x with
      | none => simp
      | some v =>
          cases hrest : decodeList NgramTokenView.decode rest with
          | none => simp [hv, hrest]
          | some vs => simp [hv, hrest]

/-- Helper: same lifting for query tokens. -/
theorem queryToken_decodeList_map (xs : List Json) :
    decodeList QueryToken.decode xs =
      (decodeList QueryTokenView.decode xs).map
        (List.map QueryToken.ofView) := by
  induction xs with
  | nil => rfl
  | cons x rest ih =>
      unfold decodeList
      rw [queryToken_decode_map x, ih]
      cases hv : QueryTokenView.decode x with
      | none => simp
      | some v =>
          cases hrest : decodeList QueryTokenView.decode rest with
          | none => simp [hv, hrest]
          | some vs => simp [hv, hrest]

/-- Helper: same agreement for n-gram records. -/
theorem ngramLite_decode_map (j : Json) :
    NgramLite.decode j = (NgramLiteView.decode j).map NgramLite.ofView := by
  unfold NgramLite.decode NgramLiteView.decode
  cases j with
  | obj fields =>
      cases h1 : (Json.find fields "id").bind Json.asStr with
      | none => simp [Json.asObj, h1]
      | some id =>
        cases h2 : (Json.find fields "absTotalMatchCount").bind Json.asU64 with
        | none => simp [Json.asObj, h1, h2]
        | some abs =>
          cases h3 :
              (Json.find fields "relTotalMatchCount").bind Json.asF64 with
          | none => simp [Json.asObj, h1, h2, h3]
          | some rel =>
            cases h4 : (Json.find fields "tokens").bind Json.asArr with
            | none => simp [Json.asObj, h1, h2, h3, h4]
            | some elems =>
              cases h5 : decodeList NgramTokenView.decode elems with
              | none =>
                  simp [Json.asObj, h1, h2, h3, h4, ngramToken_decodeList_map, h5]
              | some toks =>
                cases h6 : Json.boolFieldOrDefault fields "abstract" with
                | none =>
                    simp [Json.asObj, h1, h2, h3, h4, ngramToken_decodeList_map,
                      h5, h6]
                | some abst =>
                    simp [Json.asObj, h1, h2, h3, h4, ngramToken_decodeList_map,
                      h5, h6, NgramLite.ofView]
  | null => rfl
  | bool b => rfl
  | num q => rfl
  | str s => rfl
  | arr elems => rfl

/-- Helper: lifting for lists of n-gram records. -/
theorem ngramLite_decodeList_map (xs : List Json) :
    decodeList NgramLite.decode xs =
      (decodeList NgramLiteView.decode xs).map
        (List.map NgramLite.ofView) := by
  induction xs with
  | nil => rfl
  | cons x rest ih =>
      unfold decodeList
      rw [ngramLite_decode_map x, ih]
      cases hv : NgramLiteView.decode x with
      | none => simp
      | some v =>
          cases hrest : decodeList NgramLiteView.decode rest with
          | none => simp [hv, hrest]
          | some vs => simp [hv, hrest]

/-- Helper: decoding a raw body directly into the owned `Page` agrees with
decoding it into the borrowed `PageView` and converting. -/
theorem page_decode_map (j : Json) :
    Page.decode j = (PageView.decode j).map Page.ofView := by
  unfold Page.decode PageView.decode
  cases j with
  | obj fields =>
      cases h1 : (Json.find fields "queryTokens").bind Json.asArr with
      | none => simp [Json.asObj, h1]
      | some qelems =>
        cases h2 : decodeList QueryTokenView.decode qelems with
        | none => simp [Json.asObj, h1, queryToken_decodeList_map, h2]
        | some qtoks =>
          cases h3 : (Json.find fields "ngrams").bind Json.asArr with
          | none => simp [Json.asObj, h1, queryToken_decodeList_map, h2, h3]
          | some nelems =>
            cases h4 : decodeList NgramLiteView.decode nelems with
            | none =>
                simp [Json.asObj, h1, queryToken_decodeList_map, h2, h3,
                  ngramLite_decodeList_map, h4]
            | some ngs =>
                simp [Json.asObj, h1, queryToken_decodeList_map, h2, h3,
                  ngramLite_decodeList_map, h4, Page.ofView]
  | null => rfl
  | bool b => rfl
  | num q => rfl
  | str s => rfl
  | arr elems => rfl

/-- Helper: re-encoding the owned n-gram record equals encoding the view it
came from. -/
theorem ngramLite_encode_ofView (n : NgramLiteView) :
    NgramLite.encode (NgramLite.ofView n) = NgramLiteView.encode n := by
  unfold NgramLite.encode NgramLiteView.encode NgramLite.ofView
  have : NgramToken.encode ∘ NgramToken.ofView = NgramTokenView.encode :=
    funext fun t => rfl
  simp [List.map_map, this]

/-- Helper: re-encoding the owned page equals encoding the view it came
from. -/
theorem page_encode_ofView (v : PageView) :
    Page.encode (Page.ofView v) = PageView.encode v := by
  unfold Page.encode PageView.encode Page.ofView
  have hq : QueryToken.encode ∘ QueryToken.ofView = QueryTokenView.encode :=
    funext fun t => rfl
  have hn : NgramLite.encode ∘ NgramLite.ofView = NgramLiteView.encode :=
    funext fun n => ngramLite_encode_ofView n
  simp [List.map_map, hq, hn]

/-- C6: for every raw body that decodes into a borrowed page view,
decoding the same body directly into the owned form yields exactly the
view-to-owned conversion of that view (exact equality, hence within any
epsilon on the match counts), and re-encoding the owned form equals
encoding the view; the conversion is total and preserves structure
(lengths), kinds, counts and flags while copying all strings. -/
theorem view_owned_roundtrip (j : Json) (v : PageView)
    (h : PageView.decode j = some v) :
    Page.decode j = some (Page.ofView v) ∧
    Page.encode (Page.ofView v) = PageView.encode v ∧
    (Page.ofView v).query_tokens.length = v.query_tokens.length ∧
    (Page.ofView v).ngrams.length = v.ngrams.length ∧
    (∀ t : QueryTokenView, (QueryToken.ofView t).kind = t.kind ∧
      (QueryToken.ofView t).text = t.text) ∧
    (∀ t : NgramTokenView, (NgramToken.ofView t).kind = t.kind ∧
      (NgramToken.ofView t).text = t.text ∧
      (NgramToken.ofView t).inserted = t.inserted ∧
      (NgramToken.ofView t).completed = t.completed) ∧
    (∀ n : NgramLiteView, (NgramLite.ofView n).id = n.id ∧
      (NgramLite.ofView n).abs_total_match_count = n.abs_total_match_count ∧
      (NgramLite.ofView n).rel_total_match_count = n.rel_total_match_count ∧
      (NgramLite.ofView n).abstract = n.abstract ∧
      (NgramLite.ofView n).tokens = n.tokens.map NgramToken.ofView) := by
  refine ⟨?_, page_encode_ofView v, ?_, ?_, ?_, ?_, ?_⟩
  · rw [page_decode_map, h]
    rfl
  · simp [Page.ofView]
  · simp [Page.ofView]
  · intro t
    exact ⟨rfl, rfl⟩
  · intro t
    exact ⟨rfl, rfl, rfl, rfl⟩
  · intro n
    exact ⟨rfl, rfl, rfl, rfl, rfl⟩

/-- C6 witness: the concrete body `jPageTok` decodes to `samplePageView`,
whose owned conversion is what direct owned decoding yields, and both
encodings agree. -/
theorem view_owned_roundtrip_witness :
    Page.decode jPageTok = some (Page.ofView samplePageView) ∧
    Page.encode (Page.ofView samplePageView) =
      PageView.encode samplePageView := by
  have h := view_owned_roundtrip jPageTok samplePageView rfl
  exact ⟨h.1, h.2.1⟩

end NgramsRs
